import Mathlib

/-!
Shallow embedding of `openage/convert/entity_object/export/texture.py` and
`openage/convert/entity_object/conversion/ror/genie_sound.py`.

Python raising an exception is modelled by `Except TexError`; the numpy and PIL
collaborators are modelled by explicit shape-carrying arrays and a mode-tagged
bitmap type, following the external-interface contract they present to this code.
-/

namespace Openage

/-- A numpy `ndarray`: a dimension list (`shape`) plus flattened element data.
`shape.length` is the number of dimensions (`ndim`); `shape[i]` raises a Python
`IndexError` when `i ≥ ndim`, which the embedding reflects with `List.get?`. -/
structure NDArray where
  shape : List Nat
  data : List Nat
deriving DecidableEq, Repr

/-- Modelled from the spec: a PIL image (`Image.Image`), external to this repository.
`mode` is the PIL mode string. The pixel content is kept in its 4-channel
(red, green, blue, alpha) extracted form: `numpy.array` applied to a 4-channel image
of height `height` and width `width` yields exactly the array of shape
`[height, width, 4]` holding `pixelData` (see `Bitmap.toArray`). -/
structure Bitmap where
  mode : String
  height : Nat
  width : Nat
  pixelData : List Nat
deriving DecidableEq, Repr

/-- Modelled from the spec: `numpy.array` on a 4-channel PIL image produces the
array of shape height x width x 4 holding the image pixel content. -/
def Bitmap.toArray (b : Bitmap) : NDArray :=
  { shape := [b.height, b.width, 4], data := b.pixelData }

/-- Modelled from the spec: PIL `Image.convert` to the 4-channel form, external to
this repository. It re-tags the mode; the stored pixel content is already kept in
extracted 4-channel form, so it is unchanged. -/
def Bitmap.convertRGBA (b : Bitmap) : Bitmap :=
  { mode := "RGBA", height := b.height, width := b.width, pixelData := b.pixelData }

/-- Modelled from the spec: PIL `Image.fromarray` on the stored 4-channel pixel
array reconstitutes the 4-channel image with that content (lossless round-trip). -/
def Image.fromarray (a : NDArray) : Bitmap :=
  { mode := "RGBA"
    height := a.shape.headD 0
    width := (a.shape.drop 1).headD 0
    pixelData := a.data }

/-- The dynamic type of the `picture_data` argument of `TextureImage.__init__`:
a PIL image, a numpy array, or any other Python value (represented by the name of
its type, which is all the code reads from it). -/
inductive PictureData where
  | image (b : Bitmap)
  | ndarray (a : NDArray)
  | other (typeName : String)
deriving DecidableEq, Repr

/-- Name of the dynamic type of a `PictureData` value, as Python `type(...)`. -/
def PictureData.typeName : PictureData → String
  | .image _ => "PIL.Image.Image"
  | .ndarray _ => "numpy.ndarray"
  | .other t => t

/-- The Python exceptions this code can raise.
`valueError` is the `ValueError` of `TextureImage.__init__` (the spec's
`InvalidInputKind`); `keyError` is a failed `palettes[palette_number]` dict lookup;
`indexError` is a failed `shape[i]` access; `unknownSource` is the plain
`Exception` of `Texture.__init__` (the spec's `UnsupportedSourceKind`). -/
inductive TexError where
  | valueError (msg : String)
  | keyError (key : Nat)
  | indexError
  | unknownSource (msg : String)
deriving DecidableEq, Repr

/-- Whether a construction result is the `InvalidInputKind` (`ValueError`) failure. -/
def TexError.isValueError : TexError → Bool
  | .valueError _ => true
  | _ => false

/-- `TextureImage`: an image created from a (r,g,b,a) matrix
(`texture.py`, lines 28-62). -/
structure TextureImage where
  height : Nat
  width : Nat
  hotspot : Int × Int
  data : NDArray
deriving DecidableEq, Repr

/-- `TextureImage.__init__` (`texture.py`, lines 33-56).
A PIL image is converted to 4-channel form when needed and extracted to an array;
a value that is then not a numpy array raises `ValueError` naming its type;
`height`/`width` are read from the first two axes of the shape; the hotspot
defaults to `(0, 0)` when `None` is passed. -/
def TextureImage.init (picture_data : PictureData) (hotspot : Option (Int × Int)) :
    Except TexError TextureImage := do
  let picture_data : PictureData :=
    match picture_data with
    | .image b =>
        .ndarray (Bitmap.toArray (if b.mode ≠ "RGBA" then b.convertRGBA else b))
    | pd => pd
  match picture_data with
  | .ndarray a => do
      let height ← match a.shape[0]? with
        | some h => Except.ok h
        | none => Except.error TexError.indexError
      let width ← match a.shape[1]? with
        | some w => Except.ok w
        | none => Except.error TexError.indexError
      Except.ok { height := height, width := width
                  hotspot := hotspot.getD (0, 0), data := a }
  | pd =>
      Except.error (TexError.valueError
        ("Texture image must be created from PIL Image or numpy array, not "
          ++ pd.typeName))

/-- `TextureImage.get_pil_image` (`texture.py`, lines 58-59): `Image.fromarray(self.data)`. -/
def TextureImage.get_pil_image (t : TextureImage) : Bitmap :=
  Image.fromarray t.data

/-- `TextureImage.get_data` (`texture.py`, lines 61-62). -/
def TextureImage.get_data (t : TextureImage) : NDArray :=
  t.data

/-- A color table (`ColorTable` from `colortable.py`, an external collaborator):
the code only reads its `.array` attribute, a numpy array of palette colors. -/
structure ColorTable where
  array : NDArray
deriving DecidableEq, Repr

/-- A decoded frame of the palette-indexed formats (`SLPFrame`, `SMPLayer`,
`SMXLayer`), as the external frame-provider contract exposes it:
`get_palette_number`, `get_picture_data(main_palette)` and `get_hotspot`. -/
structure PFrame where
  get_palette_number : Option Nat
  get_picture_data : Option NDArray → PictureData
  get_hotspot : Int × Int

/-- A decoded frame of the self-colored format (`SLDLayer`): `get_picture_data()`
takes no palette, and `get_hotspot` is the anchor. -/
structure SFrame where
  get_picture_data : PictureData
  get_hotspot : Int × Int

/-- One alpha-mask tile of a `BlendingMode` (external collaborator): only its
`get_picture_data()` is consumed. -/
structure AlphaMask where
  get_picture_data : PictureData

/-- The dynamic type of `Texture.__init__`'s `input_data` argument: the three
palette-indexed containers `SLP`, `SMP`, `SMX` (each exposing
`get_frames(layer)`), the self-colored container `SLD`, a `BlendingMode`
(exposing `alphamasks`), or any other Python value. -/
inductive InputData where
  | slp (get_frames : Int → List PFrame)
  | smp (get_frames : Int → List PFrame)
  | smx (get_frames : Int → List PFrame)
  | sld (get_frames : Int → List SFrame)
  | blendingMode (alphamasks : List AlphaMask)
  | unknown (typeName : String)

/-- An `InterfaceCutter`: the code only calls its `cut` method, with contract
`cut(TextureImage) -> list[TextureImage]`. -/
def Cutter : Type := TextureImage → List TextureImage

/-- Modelled from the spec: `TILE_HALFSIZE["y"]`, the half tile height domain
constant from the hardcoded terrain tile size table (a repository file outside
this excerpt; openage uses 96 x 48 pixel tiles, so the half height is 24). -/
def TILE_HALFSIZE_y : Int := 24

/-- Resolution of a frame palette number against the `palettes` dict
(`texture.py`, lines 105-111): an absent number (`None`) yields `None` without
touching the dict; a present number is looked up (`palettes[palette_number]`,
raising `KeyError` when missing) and its `.array` is taken. -/
def resolvePalette (palettes : Nat → Option ColorTable) (palette_number : Option Nat) :
    Except TexError (Option NDArray) :=
  match palette_number with
  | none => Except.ok none
  | some n =>
      match palettes n with
      | some ct => Except.ok (some ct.array)
      | none => Except.error (TexError.keyError n)

/-- `Texture._to_subtextures` (`texture.py`, lines 143-157): build the frame
buffer from the frame picture data and hotspot, then
`custom_cutter.cut(subtex) if custom_cutter else [subtex]`. -/
def toSubtextures (frame : PFrame) (main_palette : Option NDArray)
    (custom_cutter : Option Cutter) : Except TexError (List TextureImage) := do
  let subtex ← TextureImage.init (frame.get_picture_data main_palette)
    (some frame.get_hotspot)
  match custom_cutter with
  | some cutter => Except.ok (cutter subtex)
  | none => Except.ok [subtex]

/-- The body of the palette-indexed loop (`texture.py`, lines 103-115) for one
frame: resolve the frame palette, then `_to_subtextures`. -/
def processPFrame (palettes : Nat → Option ColorTable) (custom_cutter : Option Cutter)
    (frame : PFrame) : Except TexError (List TextureImage) := do
  let main_palette ← resolvePalette palettes frame.get_palette_number
  toSubtextures frame main_palette custom_cutter

/-- The palette-indexed loop of `Texture.__init__` (`texture.py`, lines 103-115):
`self.frames.extend(iter(self._to_subtextures(frame, main_palette, custom_cutter)))`
for each frame in order; an exception aborts the construction. -/
def paletteLoop (palettes : Nat → Option ColorTable) (custom_cutter : Option Cutter) :
    List PFrame → Except TexError (List TextureImage)
  | [] => Except.ok []
  | frame :: rest => do
      let subs ← processPFrame palettes custom_cutter frame
      let more ← paletteLoop palettes custom_cutter rest
      Except.ok (subs ++ more)

/-- The self-colored loop of `Texture.__init__` (`texture.py`, lines 122-127):
one `TextureImage` per frame, from its picture data and hotspot, appended in order. -/
def sldLoop : List SFrame → Except TexError (List TextureImage)
  | [] => Except.ok []
  | frame :: rest => do
      let subtex ← TextureImage.init frame.get_picture_data (some frame.get_hotspot)
      let more ← sldLoop rest
      Except.ok (subtex :: more)

/-- The blend-mask comprehension of `Texture.__init__` (`texture.py`, lines
130-137): one `TextureImage` per alpha mask, hotspot fixed to the west corner of
a tile, `(0, TILE_HALFSIZE["y"])`. -/
def blendLoop : List AlphaMask → Except TexError (List TextureImage)
  | [] => Except.ok []
  | tile :: rest => do
      let subtex ← TextureImage.init tile.get_picture_data
        (some (0, TILE_HALFSIZE_y))
      let more ← blendLoop rest
      Except.ok (subtex :: more)

/-- `Texture`: one sprite collection, as part of a texture atlas
(`texture.py`, lines 65-92): packer hints, image data, metadata and compression
parameters all start unset; `frames` is the built entry sequence. -/
structure Texture where
  best_packer_hints : Option (List (Nat × Int × Int))
  image_data : Option TextureImage
  image_metadata : List (String × Int)
  best_compr : Option (List Int)
  frames : List TextureImage

/-- `Texture.__init__` (`texture.py`, lines 77-141): dispatch on the dynamic kind
of `input_data`. `SLP`/`SMP`/`SMX` run the palette-indexed loop over
`get_frames(layer)`; `SLD` runs the self-colored loop, retrying at layer 1 when
`layer == 0` found no frames; `BlendingMode` runs the alpha-mask comprehension;
anything else raises an `Exception` naming the source type. -/
def Texture.init (input_data : InputData) (palettes : Nat → Option ColorTable)
    (custom_cutter : Option Cutter) (layer : Int) : Except TexError Texture := do
  let frames ← match input_data with
    | .slp get_frames | .smp get_frames | .smx get_frames =>
        paletteLoop palettes custom_cutter (get_frames layer)
    | .sld get_frames => do
        let input_frames := get_frames layer
        let input_frames :=
          if layer = 0 ∧ input_frames.length = 0 then
            get_frames 1
          else
            input_frames
        sldLoop input_frames
    | .blendingMode alphamasks => blendLoop alphamasks
    | .unknown typeName =>
        Except.error (TexError.unknownSource
          ("cannot create Texture from unknown source type: " ++ typeName))
  Except.ok { best_packer_hints := none, image_data := none, image_metadata := []
              best_compr := none, frames := frames }

/-- `Texture.get_metadata` (`texture.py`, lines 159-163). -/
def Texture.get_metadata (t : Texture) : List (String × Int) :=
  t.image_metadata

/-- `Texture.get_cache_params` (`texture.py`, lines 165-171). -/
def Texture.get_cache_params (t : Texture) :
    Option (List (Nat × Int × Int)) × Option (List Int) :=
  (t.best_packer_hints, t.best_compr)

/-- `Texture.get_data_format_members` (`texture.py`, lines 173-185): the fixed
six-member struct description, ignoring `game_version`. Each member is
(exported flag, name, raw type, storage type). -/
def Texture.get_data_format_members {α : Type} (game_version : α) :
    List (Bool × String × Option String × String) :=
  [(true, "x", none, "int32_t"),
   (true, "y", none, "int32_t"),
   (true, "w", none, "int32_t"),
   (true, "h", none, "int32_t"),
   (true, "cx", none, "int32_t"),
   (true, "cy", none, "int32_t")]

/-- One item of a sound table: the code reads its `resource_id` field. -/
structure SoundItem where
  resource_id : Int
deriving DecidableEq, Repr

/-- `RoRSound` (`ror/genie_sound.py`): a sound definition whose `sound_items`
member holds the sound table. -/
structure RoRSound where
  sound_items : List SoundItem
deriving DecidableEq, Repr

/-- `RoRSound.get_sounds` (`ror/genie_sound.py`, lines 20-28): does not search
for the civ id; extends an empty list with the `resource_id` of every item of
`sound_items`, in table order. The Python default for `civ_id` is `-1`. -/
def RoRSound.get_sounds (s : RoRSound) (civ_id : Int) : List Int :=
  let sound_ids : List Int := []
  let sound_ids := sound_ids ++ (s.sound_items.map (fun item => item.resource_id))
  sound_ids

/-!
Specification-side helpers: the per-frame buffer (the `TextureImage` a frame
yields before any cutting) and its loop, used to state the builder theorems.
-/

/-- The buffer a palette-indexed frame yields: palette resolution followed by
`TextureImage` construction from the frame picture data and hotspot. -/
def frameBuffer (palettes : Nat → Option ColorTable) (frame : PFrame) :
    Except TexError TextureImage := do
  let main_palette ← resolvePalette palettes frame.get_palette_number
  TextureImage.init (frame.get_picture_data main_palette) (some frame.get_hotspot)

/-- The per-frame buffers of a frame list, in order, failing at the first
failing frame. -/
def bufferLoop (palettes : Nat → Option ColorTable) :
    List PFrame → Except TexError (List TextureImage)
  | [] => Except.ok []
  | frame :: rest => do
      let b ← frameBuffer palettes frame
      let bs ← bufferLoop palettes rest
      Except.ok (b :: bs)

theorem processPFrame_some (palettes : Nat → Option ColorTable) (c : Cutter)
    (frame : PFrame) :
    processPFrame palettes (some c) frame = Except.map c (frameBuffer palettes frame) := by
  unfold processPFrame frameBuffer toSubtextures
  cases hres : resolvePalette palettes frame.get_palette_number with
  | error e => simp [Except.map, bind, Except.bind]
  | ok mp =>
      cases hinit : TextureImage.init (frame.get_picture_data mp) (some frame.get_hotspot) with
      | error e => simp [Except.map, bind, Except.bind, hinit]
      | ok b => simp [Except.map, bind, Except.bind, hinit]

theorem processPFrame_none (palettes : Nat → Option ColorTable) (frame : PFrame) :
    processPFrame palettes none frame
      = Except.map (fun b => [b]) (frameBuffer palettes frame) := by
  unfold processPFrame frameBuffer toSubtextures
  cases hres : resolvePalette palettes frame.get_palette_number with
  | error e => simp [Except.map, bind, Except.bind]
  | ok mp =>
      cases hinit : TextureImage.init (frame.get_picture_data mp) (some frame.get_hotspot) with
      | error e => simp [Except.map, bind, Except.bind, hinit]
      | ok b => simp [Except.map, bind, Except.bind, hinit]

theorem paletteLoop_of_bufferLoop (palettes : Nat → Option ColorTable) (c : Cutter)
    (frames : List PFrame) (bufs : List TextureImage)
    (h : bufferLoop palettes frames = Except.ok bufs) :
    paletteLoop palettes (some c) frames = Except.ok (List.flatten (bufs.map c))
      ∧ paletteLoop palettes none frames = Except.ok bufs := by
  induction frames generalizing bufs with
  | nil =>
      simp [bufferLoop] at h
      subst h
      simp [paletteLoop, List.flatten]
  | cons frame rest ih =>
      rw [bufferLoop] at h
      cases hb : frameBuffer palettes frame with
      | error e => simp [hb, bind, Except.bind] at h
      | ok b =>
          rw [hb] at h
          cases hbs : bufferLoop palettes rest with
          | error e => simp [hbs, bind, Except.bind] at h
          | ok bs =>
              rw [hbs] at h
              simp [bind, Except.bind] at h
              subst h
              obtain ⟨ih1, ih2⟩ := ih bs hbs
              constructor
              · rw [paletteLoop, processPFrame_some, hb, ih1]
                simp [Except.map, bind, Except.bind, List.flatten]
              · rw [paletteLoop, processPFrame_none, hb, ih2]
                simp [Except.map, bind, Except.bind]

theorem sldLoop_length (frames : List SFrame) (bufs : List TextureImage)
    (h : sldLoop frames = Except.ok bufs) : bufs.length = frames.length := by
  induction frames generalizing bufs with
  | nil =>
      simp [sldLoop] at h
      subst h
      rfl
  | cons frame rest ih =>
      rw [sldLoop] at h
      cases hs : TextureImage.init frame.get_picture_data (some frame.get_hotspot) with
      | error e => simp [hs, bind, Except.bind] at h
      | ok b =>
          rw [hs] at h
          cases hr : sldLoop rest with
          | error e => simp [hr, bind, Except.bind] at h
          | ok bs =>
              rw [hr] at h
              simp [bind, Except.bind] at h
              subst h
              simp [ih bs hr]

theorem TextureImage.init_hotspot (pd : PictureData) (hs : Int × Int)
    (t : TextureImage) (h : TextureImage.init pd (some hs) = Except.ok t) :
    t.hotspot = hs := by
  unfold TextureImage.init at h
  cases pd with
  | image b =>
      simp [bind, Except.bind] at h
      cases h
      rfl
  | ndarray a =>
      cases h0 : a.shape[0]? with
      | none => simp [h0, bind, Except.bind] at h
      | some hh =>
          cases h1 : a.shape[1]? with
          | none => simp [h0, h1, bind, Except.bind] at h
          | some w =>
              simp [h0, h1, bind, Except.bind] at h
              cases h
              rfl
  | other ty => simp at h

theorem blendLoop_spec (masks : List AlphaMask) (bufs : List TextureImage)
    (h : blendLoop masks = Except.ok bufs) :
    bufs.length = masks.length
      ∧ bufs.all (fun b => b.hotspot = (0, TILE_HALFSIZE_y)) = true := by
  induction masks generalizing bufs with
  | nil =>
      simp [blendLoop] at h
      subst h
      simp
  | cons tile rest ih =>
      rw [blendLoop] at h
      cases hs : TextureImage.init tile.get_picture_data (some (0, TILE_HALFSIZE_y)) with
      | error e => simp [hs, bind, Except.bind] at h
      | ok b =>
          rw [hs] at h
          cases hr : blendLoop rest with
          | error e => simp [hr, bind, Except.bind] at h
          | ok bs =>
              rw [hr] at h
              simp [bind, Except.bind] at h
              subst h
              obtain ⟨ihl, ihh⟩ := ih bs hr
              refine ⟨by simp [ihl], ?_⟩
              simp only [List.all_cons, ihh, Bool.and_true]
              simp [TextureImage.init_hotspot _ _ _ hs]

/-- Whether a `TextureImage` construction result is the `InvalidInputKind`
(`ValueError`) failure. -/
def raisedInvalidInputKind (r : Except TexError TextureImage) : Bool :=
  match r with
  | .error e => e.isValueError
  | .ok _ => false

/-- C3 (amended): `TextureImage` construction fails with the `InvalidInputKind`
(`ValueError`) error, naming the received type, exactly when the input is neither
a PIL image nor a numpy array; a numpy array of any dimension passes the kind
check and never produces `InvalidInputKind` (a too-low-dimensional array fails
later with a shape `IndexError` instead), and a PIL image never produces it. -/
theorem texture_image_rejects_only_non_array_kinds
    (t : String) (hs : Option (Int × Int)) (a : NDArray) (b : Bitmap) :
    TextureImage.init (PictureData.other t) hs
      = Except.error (TexError.valueError
          ("Texture image must be created from PIL Image or numpy array, not " ++ t))
    ∧ raisedInvalidInputKind (TextureImage.init (PictureData.ndarray a) hs) = false
    ∧ raisedInvalidInputKind (TextureImage.init (PictureData.image b) hs) = false := by
  refine ⟨rfl, ?_, ?_⟩
  · unfold TextureImage.init
    cases h0 : a.shape[0]? with
    | none => simp [h0, bind, Except.bind, raisedInvalidInputKind, TexError.isValueError]
    | some hh =>
        cases h1 : a.shape[1]? with
        | none => simp [h0, h1, bind, Except.bind, raisedInvalidInputKind,
            TexError.isValueError]
        | some w => simp [h0, h1, bind, Except.bind, raisedInvalidInputKind,
            TexError.isValueError]
  · unfold TextureImage.init
    simp [Bitmap.toArray, bind, Except.bind, raisedInvalidInputKind,
      TexError.isValueError]

/-- Counterexample to C3 as stated: the concrete 2-dimensional numpy array of
shape (2, 2) is neither a bitmap nor a 3-dimensional numeric array, yet
`TextureImage` construction succeeds on it (height 2, width 2) instead of failing
with `InvalidInputKind`. -/
theorem texture_image_accepts_2d_array_cex :
    TextureImage.init (PictureData.ndarray ⟨[2, 2], [1, 2, 3, 4]⟩) none
      = Except.ok { height := 2, width := 2, hotspot := (0, 0)
                    data := ⟨[2, 2], [1, 2, 3, 4]⟩ }
    ∧ raisedInvalidInputKind
        (TextureImage.init (PictureData.ndarray ⟨[2, 2], [1, 2, 3, 4]⟩) none)
      = false :=
  ⟨rfl, rfl⟩

/-- C4: `RoRSound.get_sounds` returns exactly the `resource_id` of every item of
the sound table, in table order with duplicates preserved, for every value of
`civ_id` (including the default `-1` that models an omitted argument); it never
consults any civilization data, so the result is independent of `civ_id`, and on
the table `[5, 5, 9]` it returns `[5, 5, 9]`. -/
theorem ror_get_sounds_ignores_civ (s : RoRSound) (civ_id civ_id2 : Int) :
    s.get_sounds civ_id = s.sound_items.map (fun item => item.resource_id)
    ∧ s.get_sounds civ_id = s.get_sounds civ_id2
    ∧ s.get_sounds (-1) = s.sound_items.map (fun item => item.resource_id)
    ∧ (RoRSound.mk [⟨5⟩, ⟨5⟩, ⟨9⟩]).get_sounds civ_id = [5, 5, 9] := by
  refine ⟨rfl, rfl, rfl, rfl⟩

/-- C6: building a `Texture` from a source container of an unsupported kind fails
with the unknown-source `Exception` naming the received kind, and that error is
distinct from the `InvalidInputKind` (`ValueError`) construction failure. -/
theorem unknown_source_raises
    (typeName : String) (palettes : Nat → Option ColorTable)
    (cutter : Option Cutter) (layer : Int) :
    Texture.init (InputData.unknown typeName) palettes cutter layer
      = Except.error (TexError.unknownSource
          ("cannot create Texture from unknown source type: " ++ typeName))
    ∧ (TexError.unknownSource
        ("cannot create Texture from unknown source type: " ++ typeName)).isValueError
      = false :=
  ⟨rfl, rfl⟩

/-- C7: `Texture.get_data_format_members` returns exactly six members, in the
fixed order x, y, w, h, cx, cy, each stored as a signed 32-bit integer
(`int32_t`), for every game-version argument of every type; the result does not
depend on the game version. -/
theorem data_format_members_fixed {α β : Type} (gv : α) (gv2 : β) :
    Texture.get_data_format_members gv
      = [(true, "x", none, "int32_t"), (true, "y", none, "int32_t"),
         (true, "w", none, "int32_t"), (true, "h", none, "int32_t"),
         (true, "cx", none, "int32_t"), (true, "cy", none, "int32_t")]
    ∧ (Texture.get_data_format_members gv).length = 6
    ∧ Texture.get_data_format_members gv = Texture.get_data_format_members gv2
    ∧ (Texture.get_data_format_members gv).map (fun m => m.2.1)
      = ["x", "y", "w", "h", "cx", "cy"]
    ∧ (Texture.get_data_format_members gv).all (fun m => m.2.2.2 = "int32_t")
      = true := by
  refine ⟨rfl, rfl, rfl, rfl, rfl⟩

/-- C8: constructing a `TextureImage` from a PIL image and reading it back with
`get_pil_image` yields the image converted to 4-channel form, pixel for pixel;
an image already in 4-channel (RGBA) mode round-trips unchanged. -/
theorem bitmap_roundtrip (b : Bitmap) (hs : Option (Int × Int)) :
    Except.map TextureImage.get_pil_image (TextureImage.init (PictureData.image b) hs)
      = Except.ok (if b.mode = "RGBA" then b else b.convertRGBA)
    ∧ (b.mode = "RGBA" →
        Except.map TextureImage.get_pil_image
            (TextureImage.init (PictureData.image b) hs)
          = Except.ok b) := by
  cases b with
  | mk mode height width pixelData =>
      by_cases hm : mode = "RGBA"
      · subst hm
        exact ⟨rfl, fun _ => rfl⟩
      · constructor
        · unfold TextureImage.init
          simp [hm, Bitmap.toArray, Bitmap.convertRGBA, TextureImage.get_pil_image,
            Image.fromarray, Except.map, bind, Except.bind]
        · intro hc
          exact absurd hc hm

/-- Witness for C8 at a concrete 1 x 1 RGBA image: the round trip returns the
image unchanged. -/
theorem bitmap_roundtrip_witness :
    ("RGBA" : String) = "RGBA"
    ∧ Except.map TextureImage.get_pil_image
        (TextureImage.init (PictureData.image ⟨"RGBA", 1, 1, [7, 8, 9, 255]⟩) none)
      = Except.ok ⟨"RGBA", 1, 1, [7, 8, 9, 255]⟩ :=
  ⟨rfl, (bitmap_roundtrip ⟨"RGBA", 1, 1, [7, 8, 9, 255]⟩ none).2 rfl⟩

/-- C1: for a palette-indexed source container (`SLP`, `SMP` or `SMX`) whose
frames at the requested layer all yield buffers `bufs` in frame order, building
with a cutter produces exactly the concatenation of the cutter fragments of each
buffer, frame by frame (all fragments of frame i precede those of frame i+1),
and building without a cutter produces exactly one entry per frame, in frame
order. -/
theorem palette_indexed_cutting_preserves_frame_order
    (src : InputData) (get_frames : Int → List PFrame)
    (palettes : Nat → Option ColorTable) (cutter : Cutter) (layer : Int)
    (bufs : List TextureImage)
    (hsrc : src = InputData.slp get_frames ∨ src = InputData.smp get_frames
      ∨ src = InputData.smx get_frames)
    (hbufs : bufferLoop palettes (get_frames layer) = Except.ok bufs) :
    Except.map Texture.frames (Texture.init src palettes (some cutter) layer)
      = Except.ok (List.flatten (bufs.map cutter))
    ∧ Except.map Texture.frames (Texture.init src palettes none layer)
      = Except.ok bufs := by
  obtain ⟨h1, h2⟩ := paletteLoop_of_bufferLoop palettes cutter (get_frames layer) bufs hbufs
  rcases hsrc with h | h | h <;> subst h <;>
    exact ⟨by simp [Texture.init, h1, bind, Except.bind, Except.map],
           by simp [Texture.init, h2, bind, Except.bind, Except.map]⟩

/-- A 1 x 1 4-channel pixel array used by the concrete witnesses. -/
def pxArr (i : Nat) : NDArray :=
  ⟨[1, 1, 4], [i, 0, 0, 255]⟩

/-- A palette-indexed witness frame carrying the no-palette sentinel. -/
def pFrameW (i : Nat) : PFrame :=
  ⟨none, fun _ => PictureData.ndarray (pxArr i), (0, 0)⟩

/-- The buffer the witness frame `pFrameW i` yields. -/
def pBufW (i : Nat) : TextureImage :=
  ⟨1, 1, (0, 0), pxArr i⟩

/-- A palette-indexed witness container: three frames at layer 0. -/
def slpFramesW : Int → List PFrame :=
  fun l => if l = 0 then [pFrameW 1, pFrameW 2, pFrameW 3] else []

/-- A witness cutter that splits every buffer into exactly two fragments. -/
def cutterW : Cutter :=
  fun t => [t, { t with hotspot := (9, 9) }]

/-- An empty palette table. -/
def emptyPalettes : Nat → Option ColorTable :=
  fun _ => none

/-- Witness for C1: three frames and a two-fragment cutter give exactly the six
entries f0a, f0b, f1a, f1b, f2a, f2b in order; without a cutter, the three
buffers in frame order. -/
theorem palette_indexed_cutting_preserves_frame_order_witness :
    bufferLoop emptyPalettes (slpFramesW 0) = Except.ok [pBufW 1, pBufW 2, pBufW 3]
    ∧ (Except.map Texture.frames
          (Texture.init (InputData.slp slpFramesW) emptyPalettes (some cutterW) 0)
        = Except.ok [pBufW 1, { pBufW 1 with hotspot := (9, 9) },
                     pBufW 2, { pBufW 2 with hotspot := (9, 9) },
                     pBufW 3, { pBufW 3 with hotspot := (9, 9) }]
      ∧ Except.map Texture.frames
          (Texture.init (InputData.slp slpFramesW) emptyPalettes none 0)
        = Except.ok [pBufW 1, pBufW 2, pBufW 3]) :=
  ⟨rfl,
    palette_indexed_cutting_preserves_frame_order (InputData.slp slpFramesW)
      slpFramesW emptyPalettes cutterW 0 [pBufW 1, pBufW 2, pBufW 3]
      (Or.inl rfl) rfl⟩

/-- C2: for a self-colored (`SLD`) source built at layer 0 whose layer-0
enumeration is empty, the builder falls back to layer 1 and produces exactly one
entry per layer-1 frame, in order. -/
theorem sld_layer0_empty_falls_back_to_layer1
    (get_frames : Int → List SFrame) (palettes : Nat → Option ColorTable)
    (cutter : Option Cutter) (bufs : List TextureImage)
    (h0 : get_frames 0 = []) (hpos : 0 < (get_frames 1).length)
    (h1 : sldLoop (get_frames 1) = Except.ok bufs) :
    Except.map Texture.frames
        (Texture.init (InputData.sld get_frames) palettes cutter 0)
      = Except.ok bufs
    ∧ bufs.length = (get_frames 1).length := by
  refine ⟨?_, sldLoop_length _ _ h1⟩
  simp [Texture.init, h0, h1, bind, Except.bind, Except.map]

/-- A self-colored witness frame. -/
def sFrameW (i : Nat) : SFrame :=
  ⟨PictureData.ndarray (pxArr i), (2, 3)⟩

/-- The buffer the witness frame `sFrameW i` yields. -/
def sBufW (i : Nat) : TextureImage :=
  ⟨1, 1, (2, 3), pxArr i⟩

/-- A self-colored witness container: no layer-0 frames, two layer-1 frames. -/
def sldFramesW : Int → List SFrame :=
  fun l => if l = 1 then [sFrameW 4, sFrameW 5] else []

/-- Witness for C2: a container with layer0 = [] and layer1 = [frameA, frameB]
yields the 2-entry sequence sourced from layer 1. -/
theorem sld_layer0_empty_falls_back_to_layer1_witness :
    sldFramesW 0 = []
    ∧ 0 < (sldFramesW 1).length
    ∧ sldLoop (sldFramesW 1) = Except.ok [sBufW 4, sBufW 5]
    ∧ (Except.map Texture.frames
          (Texture.init (InputData.sld sldFramesW) emptyPalettes none 0)
        = Except.ok [sBufW 4, sBufW 5]
      ∧ ([sBufW 4, sBufW 5] : List TextureImage).length = (sldFramesW 1).length) :=
  ⟨rfl, by decide, rfl,
    sld_layer0_empty_falls_back_to_layer1 sldFramesW emptyPalettes none
      [sBufW 4, sBufW 5] rfl (by decide) rfl⟩

/-- C5: a palette-indexed frame whose palette number is the no-palette sentinel
(`None`) is processed exactly as with a `None` resolved palette — the value
handed to `get_picture_data` by `_to_subtextures` — and identically under the
empty palette table, so no table lookup is attempted for it; a frame with a
present palette number resolves through `palettes[n].array`. -/
theorem palette_sentinel_resolves_null
    (palettes : Nat → Option ColorTable) (cutter : Option Cutter)
    (frame : PFrame) (n : Nat) (ct : ColorTable)
    (hNone : frame.get_palette_number = none)
    (hLook : palettes n = some ct) :
    processPFrame palettes cutter frame = toSubtextures frame none cutter
    ∧ processPFrame (fun _ => none) cutter frame = toSubtextures frame none cutter
    ∧ resolvePalette palettes (some n) = Except.ok (some ct.array) := by
  refine ⟨?_, ?_, ?_⟩
  · simp [processPFrame, resolvePalette, hNone, bind, Except.bind]
  · simp [processPFrame, resolvePalette, hNone, bind, Except.bind]
  · simp [resolvePalette, hLook]

/-- A witness palette table holding one color table at key 3. -/
def paletteTableW : Nat → Option ColorTable :=
  fun k => if k = 3 then some { array := ⟨[1, 4], [10, 20, 30, 255]⟩ } else none

/-- Witness for C5 at a concrete sentinel frame and a table with key 3. -/
theorem palette_sentinel_resolves_null_witness :
    (pFrameW 1).get_palette_number = none
    ∧ paletteTableW 3 = some { array := ⟨[1, 4], [10, 20, 30, 255]⟩ }
    ∧ (processPFrame paletteTableW none (pFrameW 1)
        = toSubtextures (pFrameW 1) none none
      ∧ processPFrame (fun _ => none) none (pFrameW 1)
        = toSubtextures (pFrameW 1) none none
      ∧ resolvePalette paletteTableW (some 3)
        = Except.ok (some ⟨[1, 4], [10, 20, 30, 255]⟩)) :=
  ⟨rfl, rfl,
    palette_sentinel_resolves_null paletteTableW none (pFrameW 1) 3
      { array := ⟨[1, 4], [10, 20, 30, 255]⟩ } rfl rfl⟩

/-- C9: for a procedural blend-mask source with M alpha masks whose mask loop
yields `bufs`, the builder output has exactly the M buffers, one per mask in
mask-list order, each with hotspot (0, TILE_HALFSIZE y); the result is
independent of the palette table, the cutter and the layer, so neither palette
resolution nor cutting is applied to this kind. -/
theorem blend_mask_one_entry_per_mask
    (alphamasks : List AlphaMask) (palettes palettes2 : Nat → Option ColorTable)
    (cutter cutter2 : Option Cutter) (layer layer2 : Int)
    (bufs : List TextureImage)
    (h : blendLoop alphamasks = Except.ok bufs) :
    Except.map Texture.frames
        (Texture.init (InputData.blendingMode alphamasks) palettes cutter layer)
      = Except.ok bufs
    ∧ bufs.length = alphamasks.length
    ∧ bufs.all (fun b => b.hotspot = (0, TILE_HALFSIZE_y)) = true
    ∧ Texture.init (InputData.blendingMode alphamasks) palettes cutter layer
      = Texture.init (InputData.blendingMode alphamasks) palettes2 cutter2 layer2 := by
  obtain ⟨hl, hh⟩ := blendLoop_spec alphamasks bufs h
  refine ⟨?_, hl, hh, ?_⟩
  · simp [Texture.init, h, bind, Except.bind, Except.map]
  · simp [Texture.init]

/-- Witness for C9 at a concrete two-mask blending mode. -/
theorem blend_mask_one_entry_per_mask_witness :
    blendLoop [⟨PictureData.ndarray (pxArr 1)⟩, ⟨PictureData.ndarray (pxArr 2)⟩]
      = Except.ok [⟨1, 1, (0, TILE_HALFSIZE_y), pxArr 1⟩,
                   ⟨1, 1, (0, TILE_HALFSIZE_y), pxArr 2⟩]
    ∧ (Except.map Texture.frames
          (Texture.init
            (InputData.blendingMode
              [⟨PictureData.ndarray (pxArr 1)⟩, ⟨PictureData.ndarray (pxArr 2)⟩])
            emptyPalettes none 0)
        = Except.ok [⟨1, 1, (0, TILE_HALFSIZE_y), pxArr 1⟩,
                     ⟨1, 1, (0, TILE_HALFSIZE_y), pxArr 2⟩]
      ∧ ([⟨1, 1, (0, TILE_HALFSIZE_y), pxArr 1⟩,
          ⟨1, 1, (0, TILE_HALFSIZE_y), pxArr 2⟩] : List TextureImage).length
        = ([⟨PictureData.ndarray (pxArr 1)⟩,
            ⟨PictureData.ndarray (pxArr 2)⟩] : List AlphaMask).length
      ∧ ([⟨1, 1, (0, TILE_HALFSIZE_y), pxArr 1⟩,
          ⟨1, 1, (0, TILE_HALFSIZE_y), pxArr 2⟩] : List TextureImage).all
          (fun b => b.hotspot = (0, TILE_HALFSIZE_y)) = true
      ∧ Texture.init
          (InputData.blendingMode
            [⟨PictureData.ndarray (pxArr 1)⟩, ⟨PictureData.ndarray (pxArr 2)⟩])
          emptyPalettes none 0
        = Texture.init
            (InputData.blendingMode
              [⟨PictureData.ndarray (pxArr 1)⟩, ⟨PictureData.ndarray (pxArr 2)⟩])
            paletteTableW (some cutterW) 7) :=
  ⟨rfl,
    blend_mask_one_entry_per_mask
      [⟨PictureData.ndarray (pxArr 1)⟩, ⟨PictureData.ndarray (pxArr 2)⟩]
      emptyPalettes paletteTableW none (some cutterW) 0 7
      [⟨1, 1, (0, TILE_HALFSIZE_y), pxArr 1⟩, ⟨1, 1, (0, TILE_HALFSIZE_y), pxArr 2⟩]
      rfl⟩

/-- C10: for a self-colored (`SLD`) source built at a layer different from 0, no
fallback happens: the output depends only on the frames of that layer (two
containers agreeing there build identically, whatever either holds at layer 1),
and when that layer has no frames the output sequence is empty. -/
theorem sld_nonzero_layer_no_fallback
    (get_frames get_frames2 : Int → List SFrame) (palettes : Nat → Option ColorTable)
    (cutter : Option Cutter) (layer : Int)
    (hl : layer ≠ 0) (he : get_frames layer = get_frames2 layer) :
    Texture.init (InputData.sld get_frames) palettes cutter layer
      = Texture.init (InputData.sld get_frames2) palettes cutter layer
    ∧ (get_frames layer = [] →
        Except.map Texture.frames
            (Texture.init (InputData.sld get_frames) palettes cutter layer)
          = Except.ok []) := by
  constructor
  · simp [Texture.init, hl, he]
  · intro he2
    simp [Texture.init, hl, he2, sldLoop, bind, Except.bind, Except.map]

/-- A self-colored witness container that is empty except at layer 1. -/
def sldShadowOnlyW : Int → List SFrame :=
  fun l => if l = 1 then [sFrameW 4] else []

/-- An everywhere-empty self-colored witness container. -/
def sldEmptyW : Int → List SFrame :=
  fun _ => []

/-- Witness for C10 at layer 2: the layer-1 frames are not consulted and the
output is empty. -/
theorem sld_nonzero_layer_no_fallback_witness :
    (2 : Int) ≠ 0
    ∧ sldShadowOnlyW 2 = sldEmptyW 2
    ∧ Texture.init (InputData.sld sldShadowOnlyW) emptyPalettes none 2
      = Texture.init (InputData.sld sldEmptyW) emptyPalettes none 2
    ∧ Except.map Texture.frames
        (Texture.init (InputData.sld sldShadowOnlyW) emptyPalettes none 2)
      = Except.ok [] :=
  ⟨by decide, rfl,
    (sld_nonzero_layer_no_fallback sldShadowOnlyW sldEmptyW emptyPalettes none 2
      (by decide) rfl).1,
    (sld_nonzero_layer_no_fallback sldShadowOnlyW sldEmptyW emptyPalettes none 2
      (by decide) rfl).2 rfl⟩

end Openage
